import Mathlib

/-!
Shallow embedding of the BMW M5 configurator constraint engine:
the data model and catalogs (types module), the rule set and the
validation engine (constraints module), and the store's default
configuration and wheel-update action (configStore module).
-/

-- ===========================================================================
-- String helpers mirroring JS String.prototype.startsWith / includes
-- ===========================================================================

/-- Boolean list-prefix test on characters. -/
def listPrefixOf : List Char → List Char → Bool
  | [], _ => true
  | _ :: _, [] => false
  | a :: as, b :: bs => a == b && listPrefixOf as bs

/-- Boolean list-infix test on characters (JS `includes` semantics). -/
def listInfixOf : List Char → List Char → Bool
  | needle, [] => needle.isEmpty
  | needle, h :: t => listPrefixOf needle (h :: t) || listInfixOf needle t

/-- JS `s.startsWith(p)`. -/
def strStartsWith (s p : String) : Bool :=
  listPrefixOf p.data s.data

/-- JS `s.includes(sub)`. -/
def strIncludes (s sub : String) : Bool :=
  listInfixOf sub.data s.data

-- ===========================================================================
-- Data model (src/types: CarConfig and friends)
-- ===========================================================================

inductive Model
  | M5
  | fiveSeries
deriving DecidableEq, Repr

inductive PerformancePackage
  | none
  | performance
  | competition
deriving DecidableEq, Repr

inductive ColorType
  | solid
  | metallic
  | individual
  | frozen
deriving DecidableEq, Repr

inductive WheelType
  | standard
  | mSport
  | mPerformance
deriving DecidableEq, Repr

inductive Brakes
  | standard
  | performance
  | ceramic
deriving DecidableEq, Repr

inductive Leather
  | vernasca
  | merino
  | extendedMerino
deriving DecidableEq, Repr

inductive TrimMaterial
  | aluminum
  | wood
  | carbon
deriving DecidableEq, Repr

inductive Lights
  | led
  | laser
deriving DecidableEq, Repr

inductive Sound
  | standard
  | harmanKardon
  | bowersWilkins
deriving DecidableEq, Repr

inductive DrivingAssistant
  | none
  | plus
  | pro
deriving DecidableEq, Repr

structure ColorOption where
  id : String
  name : String
  hex : String
  type : ColorType
  price : Nat
deriving DecidableEq, Repr

structure WheelOption where
  id : String
  name : String
  size : Nat
  type : WheelType
  price : Nat
deriving DecidableEq, Repr

structure InteriorConfig where
  leather : Leather
  color : String
  trim : TrimMaterial
deriving DecidableEq, Repr

structure GrillColorOption where
  id : String
  name : String
  hex : String
  price : Nat
deriving DecidableEq, Repr

structure HoodPatternOption where
  id : String
  name : String
  description : String
  price : Nat
deriving DecidableEq, Repr

structure CarConfig where
  model : Model
  performancePackage : PerformancePackage
  color : ColorOption
  wheels : WheelOption
  brakes : Brakes
  interior : InteriorConfig
  lights : Lights
  sound : Sound
  drivingAssistant : DrivingAssistant
  grillColor : GrillColorOption
  hoodPattern : HoodPatternOption
deriving DecidableEq, Repr

inductive Severity
  | block
  | warn
deriving DecidableEq, Repr

inductive RuleCategory
  | wheels
  | brakes
  | color
  | interior
  | tech
deriving DecidableEq, Repr

structure ConstraintRule where
  id : String
  description : String
  condition : CarConfig → Bool
  message : String
  severity : Severity
  suggestedAlternative : Option String
  category : RuleCategory

structure ValidationResult where
  isValid : Bool
  blockers : List ConstraintRule
  warnings : List ConstraintRule
  totalViolations : Nat

-- ===========================================================================
-- Option catalogs (src/types: AVAILABLE_COLORS, AVAILABLE_WHEELS, ...)
-- ===========================================================================

def AVAILABLE_COLORS : List ColorOption := [
  { id := "alpine-white", name := "Alpinweiß", hex := "#f5f5f5", type := ColorType.solid, price := 0 },
  { id := "black", name := "Schwarz", hex := "#1a1a1a", type := ColorType.solid, price := 0 },
  { id := "sapphire-black", name := "Saphirschwarz Metallic", hex := "#0f0f14", type := ColorType.metallic, price := 1200 },
  { id := "brooklyn-grey", name := "Brooklyn Grau Metallic", hex := "#4a4a4f", type := ColorType.metallic, price := 1200 },
  { id := "portimao-blue", name := "Portimao Blau Metallic", hex := "#1c3d6e", type := ColorType.metallic, price := 1200 },
  { id := "isle-of-man-green", name := "Isle of Man Grün Metallic", hex := "#1a3d2e", type := ColorType.metallic, price := 1500 },
  { id := "frozen-deep-grey", name := "Frozen Deep Grey", hex := "#3a3a3a", type := ColorType.frozen, price := 4500 },
  { id := "frozen-marina-bay-blue", name := "Frozen Marina Bay Blau", hex := "#1c4d7a", type := ColorType.frozen, price := 4500 }
]

def AVAILABLE_WHEELS : List WheelOption := [
  { id := "standard-19", name := "Standard Alufelgen 19\"", size := 19, type := WheelType.standard, price := 0 },
  { id := "m-double-spoke-20", name := "M Doppelspeiche 20\"", size := 20, type := WheelType.mSport, price := 1800 },
  { id := "m-star-spoke-21", name := "M Sternspeiche 21\"", size := 21, type := WheelType.mSport, price := 2400 },
  { id := "m-y-spoke-21", name := "M Y-Speiche 21\"", size := 21, type := WheelType.mSport, price := 2800 },
  { id := "m-performance-forge-21", name := "M Performance Geschmiedet 21\"", size := 21, type := WheelType.mPerformance, price := 4200 }
]

def AVAILABLE_GRILL_COLORS : List GrillColorOption := [
  { id := "chrome", name := "Chrom", hex := "#C0C0C0", price := 0 },
  { id := "black-high-gloss", name := "Schwarz Hochglanz", hex := "#0a0a0a", price := 350 },
  { id := "shadow-line", name := "Shadow Line", hex := "#1a1a1a", price := 650 },
  { id := "cerium-grey", name := "Cerium Grau", hex := "#5a5a5a", price := 450 },
  { id := "gold-bronze", name := "Gold Bronze", hex := "#8B7355", price := 850 }
]

def AVAILABLE_HOOD_PATTERNS : List HoodPatternOption := [
  { id := "standard", name := "Standard", description := "Unifarben ohne Muster", price := 0 },
  { id := "carbon-fiber", name := "Carbon Fiber", description := "Sichtbare Carbonfaser-Optik", price := 2800 },
  { id := "m-stripes", name := "M Streifen", description := "BMW M Farbstreifen Blau/Violett/Rot", price := 450 },
  { id := "racing-stripes", name := "Racing Stripes", description := "Mittige Rennstreifen in Kontrastfarbe", price := 650 },
  { id := "matte-finish", name := "Matt Finish", description := "Matte Lackierung für sportlichen Look", price := 1200 }
]

-- ===========================================================================
-- Rule set (src/config/constraints: BMW_M5_CONSTRAINTS)
-- ===========================================================================

def M5_REQUIRES_M_WHEELS : ConstraintRule :=
  { id := "M5_REQUIRES_M_WHEELS",
    description := "M5 Sportwagen erfordert M Sport Felgen",
    condition := fun config =>
      decide (config.model = Model.M5) && !(strStartsWith config.wheels.id "m-"),
    message := "Der BMW M5 Sportwagen erfordert M Sport Felgen. Standard-Alufelgen sind für dieses Hochleistungsfahrzeug nicht verfügbar.",
    severity := Severity.block,
    suggestedAlternative := some "m-double-spoke-20",
    category := RuleCategory.wheels }

def M_COMPETITION_21_INCH : ConstraintRule :=
  { id := "M_COMPETITION_21_INCH",
    description := "M Competition Package erfordert 21 Zoll Felgen",
    condition := fun config =>
      decide (config.performancePackage = PerformancePackage.competition) &&
      !(strIncludes config.wheels.id "21"),
    message := "Das M Competition Paket ist nur mit 21 Zoll Felgen kompatibel für optimale Bremsleistung.",
    severity := Severity.block,
    suggestedAlternative := some "m-star-spoke-21",
    category := RuleCategory.wheels }

def CERAMIC_BRAKES_PERFORMANCE : ConstraintRule :=
  { id := "CERAMIC_BRAKES_PERFORMANCE",
    description := "Keramikbremsen erfordern Performance-Paket",
    condition := fun config =>
      decide (config.brakes = Brakes.ceramic) &&
      decide (config.performancePackage = PerformancePackage.none),
    message := "Die M Carbon Keramikbremsen sind nur in Kombination mit einem M Performance Paket verfügbar.",
    severity := Severity.block,
    suggestedAlternative := some "performance",
    category := RuleCategory.brakes }

def FROZEN_COLOR_M5 : ConstraintRule :=
  { id := "FROZEN_COLOR_M5",
    description := "Frozen Lackierungen nur für M5",
    condition := fun config =>
      strStartsWith config.color.id "frozen-" && !(decide (config.model = Model.M5)),
    message := "Frozen Individual Lackierungen sind exklusiv für den BMW M5 verfügbar.",
    severity := Severity.block,
    suggestedAlternative := some "sapphire-black",
    category := RuleCategory.color }

def MERINO_LEATHER_M5 : ConstraintRule :=
  { id := "MERINO_LEATHER_M5",
    description := "Extended Merino Leder erfordert M5 oder höher",
    condition := fun config =>
      decide (config.interior.leather = Leather.extendedMerino) &&
      !(decide (config.model = Model.M5)),
    message := "Das Extended Merino Leder ist ein exklusives Feature für den BMW M5.",
    severity := Severity.block,
    suggestedAlternative := some "vernasca",
    category := RuleCategory.interior }

def CARBON_TRIM_PERFORMANCE : ConstraintRule :=
  { id := "CARBON_TRIM_PERFORMANCE",
    description := "Carbon Interieur erfordert Performance-Paket",
    condition := fun config =>
      decide (config.interior.trim = TrimMaterial.carbon) &&
      decide (config.performancePackage = PerformancePackage.none),
    message := "Das M Carbon Interieurpaket ist nur mit einem Performance-Paket erhältlich.",
    severity := Severity.warn,
    suggestedAlternative := some "aluminum",
    category := RuleCategory.interior }

def DRIVING_ASSIST_PRO_LASER : ConstraintRule :=
  { id := "DRIVING_ASSIST_PRO_LASER",
    description := "Driving Assistant Pro erfordert Laserlicht",
    condition := fun config =>
      decide (config.drivingAssistant = DrivingAssistant.pro) &&
      !(decide (config.lights = Lights.laser)),
    message := "Der Driving Assistant Professional nutzt das Laserlicht-System für optimale Funktionalität.",
    severity := Severity.warn,
    suggestedAlternative := some "laser",
    category := RuleCategory.tech }

def HARMAN_KARDON_MIN : ConstraintRule :=
  { id := "HARMAN_KARDON_MIN",
    description := "M5 inkludiert mindestens Harman Kardon",
    condition := fun config =>
      decide (config.model = Model.M5) && decide (config.sound = Sound.standard),
    message := "Der BMW M5 wird serienmäßig mit dem Harman Kardon Surround Sound System ausgestattet.",
    severity := Severity.warn,
    suggestedAlternative := some "harman-kardon",
    category := RuleCategory.tech }

def BMW_M5_CONSTRAINTS : List ConstraintRule := [
  M5_REQUIRES_M_WHEELS,
  M_COMPETITION_21_INCH,
  CERAMIC_BRAKES_PERFORMANCE,
  FROZEN_COLOR_M5,
  MERINO_LEATHER_M5,
  CARBON_TRIM_PERFORMANCE,
  DRIVING_ASSIST_PRO_LASER,
  HARMAN_KARDON_MIN
]

-- ===========================================================================
-- Validation engine (src/config/constraints: validateConfiguration)
-- ===========================================================================

/-- The source's loop pushes every rule whose condition holds; that is a filter. -/
def validateConfiguration (config : CarConfig) : ValidationResult :=
  let violations := BMW_M5_CONSTRAINTS.filter (fun rule => rule.condition config)
  let blockers := violations.filter (fun v => decide (v.severity = Severity.block))
  let warnings := violations.filter (fun v => decide (v.severity = Severity.warn))
  { isValid := decide (blockers.length = 0),
    blockers := blockers,
    warnings := warnings,
    totalViolations := violations.length }

/-- getValidationExplanation from src/config/constraints. -/
def getValidationExplanation (result : ValidationResult) : String :=
  if result.isValid && decide (result.warnings.length = 0) then
    "Die Konfiguration ist gültig und kann so bestellt werden."
  else
    let parts : List String :=
      (if result.blockers.length > 0 then
        "Diese Konfiguration kann nicht bestellt werden:" ::
          result.blockers.map (fun rule => "- " ++ rule.message)
      else []) ++
      (if result.warnings.length > 0 then
        "\nHinweise:" :: result.warnings.map (fun rule => "- " ++ rule.message)
      else [])
    String.intercalate "\n" parts

/-- getWheelName: a fixed three-entry name map with raw-id fallback. -/
def getWheelName (id : String) : String :=
  if id = "m-double-spoke-20" then "M Doppelspeiche 20\""
  else if id = "m-star-spoke-21" then "M Sternspeiche 21\""
  else if id = "m-y-spoke-21" then "M Y-Speiche 21\""
  else id

/-- getColorName: a fixed three-entry name map with raw-id fallback. -/
def getColorName (id : String) : String :=
  if id = "sapphire-black" then "Saphirschwarz Metallic"
  else if id = "alpine-white" then "Alpinweiß"
  else if id = "brooklyn-grey" then "Brooklyn Grau Metallic"
  else id

/-- One suggestion line for one rule; `none` when the rule's alternative is
absent or the empty string (JS: `if (rule.suggestedAlternative)` is falsy
on the empty string). -/
def sugOfRule (rule : ConstraintRule) : Option String :=
  match rule.suggestedAlternative with
  | some alt =>
    if alt = "" then none
    else some (match rule.category with
      | RuleCategory.wheels => "Felgen ändern zu: " ++ getWheelName alt
      | RuleCategory.brakes => "Performance-Paket hinzufügen für Keramikbremsen"
      | RuleCategory.color => "Farbe ändern zu: " ++ getColorName alt
      | RuleCategory.interior => "Interieur ändern zu: " ++ alt
      | RuleCategory.tech => "Ausstattung hinzufügen: " ++ alt)
  | none => none

/-- suggestFixes from src/config/constraints: imperative push-loop over
`[...result.blockers, ...result.warnings]`, embedded as a fold. -/
def suggestFixes (result : ValidationResult) ( _config : CarConfig) : List String :=
  (result.blockers ++ result.warnings).foldl
    (fun suggestions rule =>
      match sugOfRule rule with
      | some s => suggestions ++ [s]
      | none => suggestions)
    []

-- ===========================================================================
-- Store (src/stores/configStore: DEFAULT_CONFIG, setWheels, setGrillColor)
-- ===========================================================================

def DEFAULT_CONFIG : CarConfig :=
  { model := Model.M5,
    performancePackage := PerformancePackage.performance,
    color := (AVAILABLE_COLORS.find? (fun c => c.id == "sapphire-black")).getD
      { id := "", name := "", hex := "", type := ColorType.solid, price := 0 },
    wheels := (AVAILABLE_WHEELS.find? (fun w => w.id == "m-double-spoke-20")).getD
      { id := "", name := "", size := 0, type := WheelType.standard, price := 0 },
    brakes := Brakes.performance,
    interior := { leather := Leather.merino, color := "black", trim := TrimMaterial.aluminum },
    lights := Lights.laser,
    sound := Sound.harmanKardon,
    drivingAssistant := DrivingAssistant.plus,
    grillColor := (AVAILABLE_GRILL_COLORS.find? (fun g => g.id == "shadow-line")).getD
      { id := "", name := "", hex := "", price := 0 },
    hoodPattern := (AVAILABLE_HOOD_PATTERNS.find? (fun h => h.id == "standard")).getD
      { id := "", name := "", description := "", price := 0 } }

/-- setWheels: look the id up in the catalog; on a hit replace the wheels
field, on a miss leave the configuration unchanged. -/
def setWheels (wheelId : String) (config : CarConfig) : CarConfig :=
  match AVAILABLE_WHEELS.find? (fun w => w.id == wheelId) with
  | some wheels => { config with wheels := wheels }
  | none => config

-- ===========================================================================
-- Concrete fixtures used by the theorems below
-- ===========================================================================

/-- A ValidationResult whose isValid flag and warning list say "valid" while
the blocker list is nonempty; exercises that the explanation reads only the
isValid flag and the warnings. -/
def oddResult : ValidationResult :=
  { isValid := true, blockers := [HARMAN_KARDON_MIN], warnings := [], totalViolations := 3 }

/-- A 5-series configuration whose color carries the classification tag
`individual` but an id that does not start with "frozen-". -/
def individualColorConfig : CarConfig :=
  { DEFAULT_CONFIG with
    model := Model.fiveSeries,
    color := { id := "velvet-orchid", name := "Velvet Orchid Individual",
               hex := "#5a2a5a", type := ColorType.individual, price := 6000 } }

/-- A 5-series configuration with the catalog's frozen-deep-grey color. -/
def frozenFiveSeriesConfig : CarConfig :=
  { DEFAULT_CONFIG with
    model := Model.fiveSeries,
    color := { id := "frozen-deep-grey", name := "Frozen Deep Grey",
               hex := "#3a3a3a", type := ColorType.frozen, price := 4500 } }

/-- A wheels-category rule whose suggested alternative is a catalog wheel id
that is absent from the internal getWheelName map. -/
def unmappedWheelRule : ConstraintRule :=
  { id := "TEST_UNMAPPED_WHEEL", description := "test rule", condition := fun _ => false,
    message := "test", severity := Severity.block,
    suggestedAlternative := some "m-performance-forge-21", category := RuleCategory.wheels }

/-- A ValidationResult holding only unmappedWheelRule as blocker. -/
def unmappedWheelResult : ValidationResult :=
  { isValid := false, blockers := [unmappedWheelRule], warnings := [], totalViolations := 1 }

/-- A rule carrying the empty string as its suggested alternative. -/
def emptyAlternativeRule : ConstraintRule :=
  { id := "TEST_EMPTY_ALT", description := "test rule", condition := fun _ => true,
    message := "test", severity := Severity.block,
    suggestedAlternative := some "", category := RuleCategory.tech }

/-- A ValidationResult holding only emptyAlternativeRule as blocker. -/
def emptyAlternativeResult : ValidationResult :=
  { isValid := false, blockers := [emptyAlternativeRule], warnings := [], totalViolations := 1 }

-- ===========================================================================
-- Helper lemmas
-- ===========================================================================

theorem length_filter_severity (l : List ConstraintRule) :
    (l.filter (fun v => decide (v.severity = Severity.block))).length +
      (l.filter (fun v => decide (v.severity = Severity.warn))).length = l.length := by
  induction l with
  | nil => rfl
  | cons r t ih =>
    cases h : r.severity <;> simp [List.filter_cons, h] <;> omega

theorem suggestFixes_eq_filterMap (result : ValidationResult) (config : CarConfig) :
    suggestFixes result config = (result.blockers ++ result.warnings).filterMap sugOfRule := by
  have h : ∀ (l : List ConstraintRule) (acc : List String),
      l.foldl (fun suggestions rule =>
        match sugOfRule rule with
        | some s => suggestions ++ [s]
        | none => suggestions) acc = acc ++ l.filterMap sugOfRule := by
    intro l
    induction l with
    | nil => intro acc; simp
    | cons r t ih =>
      intro acc
      cases hr : sugOfRule r <;> simp [List.foldl_cons, List.filterMap_cons, hr, ih]
  exact h (result.blockers ++ result.warnings) []

theorem sugOfRule_isSome (rule : ConstraintRule) :
    (sugOfRule rule).isSome =
      (decide (rule.suggestedAlternative ≠ none) &&
        decide (rule.suggestedAlternative ≠ some "")) := by
  unfold sugOfRule
  cases h : rule.suggestedAlternative with
  | none => simp
  | some alt =>
    by_cases ha : alt = "" <;> simp [ha]

theorem length_filterMap_sugOfRule (l : List ConstraintRule) :
    (l.filterMap sugOfRule).length = (l.filter (fun r => (sugOfRule r).isSome)).length := by
  induction l with
  | nil => rfl
  | cons r t ih =>
    cases hr : sugOfRule r <;>
      simp [List.filterMap_cons, List.filter_cons, hr, ih, Option.isSome]

-- ===========================================================================
-- Claim theorems
-- ===========================================================================

/-- C1: for every configuration, the result of validateConfiguration has
isValid true exactly when its blocker list is empty, independent of how many
warn-severity rules are triggered. -/
theorem validate_isValid_iff_no_blockers (config : CarConfig) :
    (validateConfiguration config).isValid = true ↔
      (validateConfiguration config).blockers.length = 0 := by
  simp [validateConfiguration]

/-- C2: for every configuration, totalViolations equals the number of
blockers plus the number of warnings; every triggered rule is counted once,
partitioned by severity. -/
theorem validate_totalViolations_eq (config : CarConfig) :
    (validateConfiguration config).totalViolations =
      (validateConfiguration config).blockers.length +
        (validateConfiguration config).warnings.length :=
  (length_filter_severity (BMW_M5_CONSTRAINTS.filter (fun rule => rule.condition config))).symm

/-- C3: the shipped default configuration validates with zero blockers,
isValid true, zero warnings, and the fixed fully-valid explanation. -/
theorem default_config_valid :
    (validateConfiguration DEFAULT_CONFIG).blockers.length = 0 ∧
    (validateConfiguration DEFAULT_CONFIG).isValid = true ∧
    (validateConfiguration DEFAULT_CONFIG).warnings.length = 0 ∧
    getValidationExplanation (validateConfiguration DEFAULT_CONFIG) =
      "Die Konfiguration ist gültig und kann so bestellt werden." :=
  ⟨rfl, rfl, rfl, rfl⟩

/-- C4 counterexample: a non-M5 configuration whose color carries the
classification tag `individual` (but whose id lacks the "frozen-" prefix)
validates with no blocker at all, refuting the claim that the tag alone
forces a color-category blocker: the rule tests the id prefix, not the tag. -/
theorem frozen_claim_counterexample :
    individualColorConfig.color.type = ColorType.individual ∧
    individualColorConfig.model ≠ Model.M5 ∧
    (validateConfiguration individualColorConfig).blockers = [] :=
  ⟨rfl, by decide, rfl⟩

/-- C4 (amended): for every configuration whose color is drawn from the
catalog AVAILABLE_COLORS and carries the classification tag `individual` or
`frozen`, while the model is not M5, validateConfiguration returns a blocker
of category color (on catalog data the frozen tag coincides with the
"frozen-" id prefix the rule actually tests). -/
theorem catalog_frozen_color_blocker (config : CarConfig)
    (hmem : config.color ∈ AVAILABLE_COLORS)
    (htype : config.color.type = ColorType.individual ∨
      config.color.type = ColorType.frozen)
    (hmodel : config.model ≠ Model.M5) :
    ∃ rule ∈ (validateConfiguration config).blockers,
      rule.category = RuleCategory.color := by
  have key : strStartsWith config.color.id "frozen-" = true →
      ∃ rule ∈ (validateConfiguration config).blockers,
        rule.category = RuleCategory.color := by
    intro hid
    refine ⟨FROZEN_COLOR_M5, ?_, rfl⟩
    have hcond : FROZEN_COLOR_M5.condition config = true := by
      simp [FROZEN_COLOR_M5, hid, hmodel]
    show FROZEN_COLOR_M5 ∈
      ((BMW_M5_CONSTRAINTS.filter (fun rule => rule.condition config)).filter
        (fun v => decide (v.severity = Severity.block)))
    refine List.mem_filter.mpr ⟨List.mem_filter.mpr ⟨?_, hcond⟩, by decide⟩
    simp [BMW_M5_CONSTRAINTS]
  simp only [AVAILABLE_COLORS, List.mem_cons, List.not_mem_nil, or_false] at hmem
  rcases hmem with h | h | h | h | h | h | h | h <;>
    first
      | (exact key (by rw [h]; rfl))
      | (rw [h] at htype; simp at htype)

/-- C4 witness: the amended theorem applied to a 5-series configuration with
the catalog's frozen-deep-grey color. -/
theorem catalog_frozen_color_blocker_witness :
    ∃ rule ∈ (validateConfiguration frozenFiveSeriesConfig).blockers,
      rule.category = RuleCategory.color :=
  catalog_frozen_color_blocker frozenFiveSeriesConfig (by decide) (Or.inr rfl) (by decide)

/-- C5 counterexample: a wheels-category rule whose suggested alternative
m-performance-forge-21 resolves in the wheel catalog to a differently named
wheel, yet suggestFixes echoes the raw identifier: the lookup goes through a
fixed internal three-entry name map, not the catalog. -/
theorem wheel_name_catalog_counterexample :
    suggestFixes unmappedWheelResult DEFAULT_CONFIG =
      ["Felgen ändern zu: m-performance-forge-21"] ∧
    AVAILABLE_WHEELS.find? (fun w => w.id == "m-performance-forge-21") =
      some { id := "m-performance-forge-21", name := "M Performance Geschmiedet 21\"",
             size := 21, type := WheelType.mPerformance, price := 4200 } ∧
    ("M Performance Geschmiedet 21\"" : String) ≠ "m-performance-forge-21" :=
  ⟨rfl, rfl, by decide⟩

/-- C5 (amended): wheel- and color-category suggestions name the replacement
via the fixed internal name maps getWheelName and getColorName; whenever one
of these maps translates an identifier it agrees with the corresponding
catalog entry, and every wheel- or color-category rule appearing in the
result with a non-empty suggested alternative contributes its formatted
suggestion to the suggestFixes output. -/
theorem suggestion_naming_amended :
    (∀ id : String, getWheelName id ≠ id →
      ∃ w ∈ AVAILABLE_WHEELS, w.id = id ∧ w.name = getWheelName id) ∧
    (∀ id : String, getColorName id ≠ id →
      ∃ c ∈ AVAILABLE_COLORS, c.id = id ∧ c.name = getColorName id) ∧
    (∀ (result : ValidationResult) (config : CarConfig) (rule : ConstraintRule) (alt : String),
      rule ∈ result.blockers ++ result.warnings → rule.category = RuleCategory.wheels →
      rule.suggestedAlternative = some alt → alt ≠ "" →
      ("Felgen ändern zu: " ++ getWheelName alt) ∈ suggestFixes result config) ∧
    (∀ (result : ValidationResult) (config : CarConfig) (rule : ConstraintRule) (alt : String),
      rule ∈ result.blockers ++ result.warnings → rule.category = RuleCategory.color →
      rule.suggestedAlternative = some alt → alt ≠ "" →
      ("Farbe ändern zu: " ++ getColorName alt) ∈ suggestFixes result config) := by
  refine ⟨?_, ?_, ?_, ?_⟩
  · intro id h
    unfold getWheelName at h ⊢
    split_ifs at h ⊢ with h1 h2 h3
    · subst h1
      exact ⟨⟨"m-double-spoke-20", "M Doppelspeiche 20\"", 20, WheelType.mSport, 1800⟩,
        by decide, rfl, rfl⟩
    · subst h2
      exact ⟨⟨"m-star-spoke-21", "M Sternspeiche 21\"", 21, WheelType.mSport, 2400⟩,
        by decide, rfl, rfl⟩
    · subst h3
      exact ⟨⟨"m-y-spoke-21", "M Y-Speiche 21\"", 21, WheelType.mSport, 2800⟩,
        by decide, rfl, rfl⟩
    · exact absurd rfl h
  · intro id h
    unfold getColorName at h ⊢
    split_ifs at h ⊢ with h1 h2 h3
    · subst h1
      exact ⟨⟨"sapphire-black", "Saphirschwarz Metallic", "#0f0f14", ColorType.metallic, 1200⟩,
        by decide, rfl, rfl⟩
    · subst h2
      exact ⟨⟨"alpine-white", "Alpinweiß", "#f5f5f5", ColorType.solid, 0⟩,
        by decide, rfl, rfl⟩
    · subst h3
      exact ⟨⟨"brooklyn-grey", "Brooklyn Grau Metallic", "#4a4a4f", ColorType.metallic, 1200⟩,
        by decide, rfl, rfl⟩
    · exact absurd rfl h
  · intro result config rule alt hmem hcat halt hne
    rw [suggestFixes_eq_filterMap]
    exact List.mem_filterMap.mpr ⟨rule, hmem, by simp [sugOfRule, halt, hne, hcat]⟩
  · intro result config rule alt hmem hcat halt hne
    rw [suggestFixes_eq_filterMap]
    exact List.mem_filterMap.mpr ⟨rule, hmem, by simp [sugOfRule, halt, hne, hcat]⟩

/-- C5 witness: the amended theorem's wheel-map clause applied to the
identifier m-star-spoke-21. -/
theorem suggestion_naming_amended_witness :
    ∃ w ∈ AVAILABLE_WHEELS, w.id = "m-star-spoke-21" ∧
      w.name = getWheelName "m-star-spoke-21" :=
  suggestion_naming_amended.1 "m-star-spoke-21" (by decide)

/-- C6 counterexample: a blocker that carries a suggestedAlternative (the
empty string, present but falsy in JS) produces no suggestion at all, so the
output is not one suggestion per alternative-carrying violated rule. -/
theorem empty_alternative_counterexample :
    ((emptyAlternativeResult.blockers ++ emptyAlternativeResult.warnings).filter
      (fun rule => rule.suggestedAlternative.isSome)).length = 1 ∧
    suggestFixes emptyAlternativeResult DEFAULT_CONFIG = [] :=
  ⟨rfl, rfl⟩

/-- C6 (amended): suggestFixes emits exactly one suggestion per violated
rule carrying a non-empty suggestedAlternative, iterating blockers first in
list order and then warnings; rules with an absent or empty alternative are
skipped without error. -/
theorem suggestFixes_one_per_rule (result : ValidationResult) (config : CarConfig) :
    suggestFixes result config = (result.blockers ++ result.warnings).filterMap sugOfRule ∧
    (suggestFixes result config).length =
      ((result.blockers ++ result.warnings).filter
        (fun rule => decide (rule.suggestedAlternative ≠ none) &&
          decide (rule.suggestedAlternative ≠ some ""))).length := by
  refine ⟨suggestFixes_eq_filterMap result config, ?_⟩
  rw [suggestFixes_eq_filterMap result config, length_filterMap_sugOfRule]
  simp only [sugOfRule_isSome]

/-- C7: applying a wheel identifier that matches no catalog wheel leaves the
configuration unchanged: no exception, no null written into the field. -/
theorem setWheels_unknown_id_noop (config : CarConfig) (wheelId : String)
    (h : ∀ w ∈ AVAILABLE_WHEELS, w.id ≠ wheelId) :
    setWheels wheelId config = config := by
  unfold setWheels
  have hnone : AVAILABLE_WHEELS.find? (fun w => w.id == wheelId) = none := by
    rw [List.find?_eq_none]
    intro w hw
    simp [h w hw]
  rw [hnone]

/-- C7 witness: the theorem applied to the default configuration and an
identifier absent from the wheel catalog. -/
theorem setWheels_unknown_id_noop_witness :
    setWheels "wagon-wheel-16" DEFAULT_CONFIG = DEFAULT_CONFIG :=
  setWheels_unknown_id_noop DEFAULT_CONFIG "wagon-wheel-16" (by decide)

/-- C8: updating only the grill color, or only the hood pattern — the two
dimensions no rule's condition reads — leaves the isValid verdict of
validateConfiguration unchanged. -/
theorem unread_dimension_isValid_invariant :
    (∀ (config : CarConfig) (g : GrillColorOption),
      (validateConfiguration { config with grillColor := g }).isValid =
        (validateConfiguration config).isValid) ∧
    (∀ (config : CarConfig) (p : HoodPatternOption),
      (validateConfiguration { config with hoodPattern := p }).isValid =
        (validateConfiguration config).isValid) :=
  ⟨fun _ _ => rfl, fun _ _ => rfl⟩

/-- C9: every ValidationResult with isValid true and no warnings is
explained by the one fixed fully-valid sentence, whatever produced it. -/
theorem explanation_fixed_sentence (result : ValidationResult)
    (h1 : result.isValid = true) (h2 : result.warnings.length = 0) :
    getValidationExplanation result =
      "Die Konfiguration ist gültig und kann so bestellt werden." := by
  simp [getValidationExplanation, h1, h2]

/-- C9 witness: the theorem applied to a hand-built result that even has a
nonempty blocker list, showing only the two tested fields matter. -/
theorem explanation_fixed_sentence_witness :
    getValidationExplanation oddResult =
      "Die Konfiguration ist gültig und kann so bestellt werden." :=
  explanation_fixed_sentence oddResult rfl rfl

/-- C10: the Configuration argument of suggestFixes has no influence on its
output; the output depends only on the ValidationResult. -/
theorem suggestFixes_ignores_config (result : ValidationResult) (c1 c2 : CarConfig) :
    suggestFixes result c1 = suggestFixes result c2 := rfl
